import Mathlib

/-!
Shallow embedding of `src/task1/task1.py`, a CSMA/CD shared-medium
simulation: class `Station` (a thread with a sense / transmit / verify /
backoff loop over class-level shared state), `runSession`, and the
command-line entry point.  Machine integers of the source are modelled as
`Nat` / `Int`; the real-valued durations (`interframeGap`, the slot time
`9.6e-6`) are modelled as exact rationals; the nondeterministic scheduling
is modelled by passing the observed value of the shared frame buffer into
each loop iteration explicitly.
-/

/-- Decimal digits of a natural number, least significant last, with an
explicit fuel argument so the recursion is structural (the fuel `n` is
always enough since `n / 10 < n` for `n ≥ 10`).  This embeds the decimal
rendering performed by the format calls `str(i)` of the source. -/
def natDigitsAux : Nat → Nat → List Nat
  | 0, n => [n % 10]
  | fuel + 1, n => if n < 10 then [n] else natDigitsAux fuel (n / 10) ++ [n % 10]

/-- Decimal digit list of a natural number. -/
def natDigits (n : Nat) : List Nat := natDigitsAux n n

/-- The character rendering a single decimal digit. -/
def digitChar (d : Nat) : Char := Char.ofNat (48 + d)

/-- Decimal string of a natural number, the model of the Python `str(n)` /
format-placeholder rendering for a nonnegative integer. -/
def natStr (n : Nat) : String := ⟨(natDigits n).map digitChar⟩

/-- Class attribute `Station.interframeGap = 5e-1` (seconds), as an exact
rational. -/
def interframeGap : ℚ := 5e-1

/-- Class attribute `Station.maxAttemptCount = 15`. -/
def maxAttemptCount : Nat := 15

/-- Per-station mutable state of the Python `Station` object: its `name`,
its quota `frameCount`, and the counters `transmittedCount` and
`attemptNumber` mutated by `run`. -/
structure StationState where
  name : String
  frameCount : Nat
  transmittedCount : Nat
  attemptNumber : Nat
deriving DecidableEq

/-- State of a `Station` right after `__init__(name, frameCount)`:
`transmittedCount = 0`, `attemptNumber = 1`. -/
def initStation (name : String) (frameCount : Nat) : StationState :=
  { name := name, frameCount := frameCount, transmittedCount := 0, attemptNumber := 1 }

/-- The frame built at line 61 of the source,
`Station.frameTemplate.format(self.name, self.transmittedCount)` with
`frameTemplate` equal to the literal of line 21. -/
def formatFrame (name : String) (transmittedCount : Nat) : String :=
  "Station " ++ name ++ ". Frame " ++ natStr transmittedCount ++ ".\n"

/-- The frame a station in state `s` writes into the shared buffer. -/
def frameOf (s : StationState) : String := formatFrame s.name s.transmittedCount

/-- `Station.isCollisionDetected` (lines 100-101): compares the frame the
station wrote against the current value of the shared class attribute
`Station.frameBuffer`, passed here explicitly. -/
def isCollisionDetected (frame : String) (frameBuffer : String) : Bool :=
  frame != frameBuffer

/-- Outcome of the Verifying step of one loop iteration of `Station.run`. -/
inductive Outcome where
  | collidedTerminated
  | collidedBackoff
  | succeeded
deriving DecidableEq

/-- One iteration of the `while self.transmittedCount < self.frameCount`
loop of `Station.run` (lines 55-81), entered after sensing succeeded.  The
station sets `Station.isMediumIdle = False`, writes its frame, holds, and
then verifies against `observedBuffer`, the value the shared
`Station.frameBuffer` holds at verification time (equal to the written
frame unless another station overwrote it during the hold window).
Returns the new station state, the value the station leaves in
`Station.isMediumIdle` (absent further interference), and the outcome:
- collision and `attemptNumber > maxAttemptCount`: `break` (line 70),
  state unchanged, medium left busy;
- collision otherwise: backoff sleep, `attemptNumber += 1`, medium left
  busy;
- no collision: `transmittedCount += 1`, `attemptNumber = 1`,
  `Station.isMediumIdle = True`. -/
def runIteration (s : StationState) (observedBuffer : String) :
    StationState × Bool × Outcome :=
  if isCollisionDetected (frameOf s) observedBuffer then
    if s.attemptNumber > maxAttemptCount then
      (s, false, Outcome.collidedTerminated)
    else
      ({ s with attemptNumber := s.attemptNumber + 1 }, false, Outcome.collidedBackoff)
  else
    ({ s with transmittedCount := s.transmittedCount + 1, attemptNumber := 1 },
      true, Outcome.succeeded)

/-- Reason a station run terminates: the quota check of line 55 failed, or
the `break` of line 70 fired. -/
inductive TermReason where
  | quotaReached
  | maxAttemptsExceeded
deriving DecidableEq

/-- Where control goes after one loop iteration produced state `s` and
outcome `o`: the `break` leaves the loop with the attempt limit exceeded;
otherwise the loop condition `transmittedCount < frameCount` decides
between another Sensing round and normal termination. -/
inductive RunStatus where
  | sensing
  | terminated (reason : TermReason)
deriving DecidableEq

def statusAfter (s : StationState) (o : Outcome) : RunStatus :=
  match o with
  | Outcome.collidedTerminated => RunStatus.terminated TermReason.maxAttemptsExceeded
  | _ =>
    if s.transmittedCount < s.frameCount then RunStatus.sensing
    else RunStatus.terminated TermReason.quotaReached

/-- States a station can be in at the top of a loop iteration: the initial
state, and any state produced by an iteration that was actually entered
(loop guard true) under some observed buffer value. -/
inductive Reachable (name : String) (frameCount : Nat) : StationState → Prop where
  | init : Reachable name frameCount (initStation name frameCount)
  | step {s : StationState} (observedBuffer : String) :
      Reachable name frameCount s →
      s.transmittedCount < s.frameCount →
      Reachable name frameCount (runIteration s observedBuffer).1

/-- `Station.getBackoffPeriod` (lines 103-104) with the result of
`randint(0, 2 ** self.attemptNumber)` passed explicitly as `r`:
`Station.interframeGap + 9.6e-6 * r`. -/
def getBackoffPeriod (attemptNumber : Nat) (r : Nat) : ℚ :=
  interframeGap + 9.6e-6 * r

/-- Largest value `getBackoffPeriod` can return for a given attempt
number, i.e. its value at the inclusive upper end `r = 2 ^ attemptNumber`
of the `randint` range. -/
def maxBackoffPeriod (attemptNumber : Nat) : ℚ :=
  getBackoffPeriod attemptNumber (2 ^ attemptNumber)

/-- Station name built by the f-string at line 110 of the source: the literal `Apollo` followed by the decimal index. -/
def apolloName (i : Nat) : String := "Apollo" ++ natStr i

/-- The station list built by `runSession` (line 110): station at index
`i` is a `Station` whose name is `Apollo` followed by `i` and whose quota is `i + 1`, modelled as the pair of its name
and its `frameCount` quota. -/
def runSessionStations (stationCount : Nat) : List (String × Nat) :=
  (List.range stationCount).map (fun i => (apolloName i, i + 1))

/-- Modelled from the spec: `SessionResult`, a mapping from station id to
final delivered count and termination reason, which §3 of the spec says
`runSession` produces once all stations finish.  No such type exists in
the source: `runSession` (lines 107-118) only starts and joins the
threads. -/
def SessionResult : Type := List (Nat × Nat × TermReason)

/-- Return value of the Python function `runSession` (lines 107-118): the
function body ends without a `return` statement, so it returns `None`,
modelled as `none` regardless of the station count. -/
def runSessionReturn (stationCount : Nat) : Option SessionResult := none

/-- One observable call made by the body of `runSession`: a console
print, a `station.start()` call, or a `station.join()` call, each
identified by the station name.  `join name` blocks the caller until the
thread of that station has terminated. -/
inductive SessionAction where
  | printLine (msg : String)
  | start (name : String)
  | join (name : String)
deriving DecidableEq

/-- The call trace of `runSession(stationCount)` (lines 107-118), in
program order: the opening print (line 108), `station.start()` for each
station in list order (lines 112-113), `station.join()` for each station
in list order (lines 115-116), and the closing print (line 118), after
which the function returns `None`.  Because each `join` blocks until that
station has terminated, every action after the last `join` — and the
return itself — happens only once all stations have terminated. -/
def runSessionTrace (stationCount : Nat) : List SessionAction :=
  [SessionAction.printLine "Starting session"]
    ++ (runSessionStations stationCount).map (fun s => SessionAction.start s.1)
    ++ (runSessionStations stationCount).map (fun s => SessionAction.join s.1)
    ++ [SessionAction.printLine "Session ended"]

/-- Top-level outcome of the `__main__` block: either a message printed
to the console, or a call `runSession(stationCount)`. -/
inductive CliAction where
  | printMsg (msg : String)
  | runSession (stationCount : Int)
deriving DecidableEq

/-- The usage string of lines 122-124. -/
def usageMsg : String := "\n    Usage: python3 task1.py <stationCount>\n    "

/-- The `__main__` block (lines 120-139).  `parseInt` models the library
call `int(argv[1])`, returning `none` when `int` raises `ValueError`;
`cpuCount` models `cpu_count()`.  With exactly one positional argument the
code parses it, rejects values above `cpuCount`, then values below 1, and
otherwise calls `runSession`. -/
def cliMain (parseInt : String → Option Int) (argv : List String)
    (cpuCount : Int) : CliAction :=
  match argv with
  | [_, arg] =>
    match parseInt arg with
    | some stationCount =>
      if stationCount > cpuCount then
        CliAction.printMsg "Station count is greater than CPU count"
      else if stationCount < 1 then
        CliAction.printMsg "Enter positive station count"
      else
        CliAction.runSession stationCount
    | none => CliAction.printMsg "Station count is not a number"
  | _ => CliAction.printMsg usageMsg

/-- A station that has already collided `maxAttemptCount` times for its
first frame and is about to start its sixteenth attempt. -/
def station16 : StationState :=
  { name := "Apollo0", frameCount := 2, transmittedCount := 0,
    attemptNumber := maxAttemptCount + 1 }

/-- Characters of the frame-template separator `". Frame "` after its
leading dot. -/
def sepTail : List Char := (" Frame ").data

theorem natDigitsAux_fuel_irrel :
    ∀ f₁ f₂ n, n ≤ f₁ → n ≤ f₂ → natDigitsAux f₁ n = natDigitsAux f₂ n := by
  intro f₁
  induction f₁ with
  | zero =>
    intro f₂ n h₁ h₂
    interval_cases n
    cases f₂ <;> simp [natDigitsAux]
  | succ f ih =>
    intro f₂ n h₁ h₂
    by_cases hn : n < 10
    · cases f₂ with
      | zero =>
        interval_cases n
        simp [natDigitsAux]
      | succ g => simp [natDigitsAux, hn]
    · have hne : 10 ≤ n := by omega
      cases f₂ with
      | zero => omega
      | succ g =>
        simp only [natDigitsAux, if_neg (by omega : ¬ n < 10)]
        have hd : n / 10 < n := Nat.div_lt_self (by omega) (by omega)
        rw [ih g (n / 10) (by omega) (by omega)]

/-- Unfolding equation for `natDigits`. -/
theorem natDigits_eq (n : Nat) :
    natDigits n = if n < 10 then [n] else natDigits (n / 10) ++ [n % 10] := by
  by_cases hn : n < 10
  · simp only [natDigits, if_pos hn]
    cases n with
    | zero => simp [natDigitsAux]
    | succ m => simp [natDigitsAux, hn]
  · have h10 : 10 ≤ n := by omega
    simp only [natDigits, if_neg hn]
    cases n with
    | zero => omega
    | succ m =>
      simp only [natDigitsAux, if_neg hn]
      have hd : (m + 1) / 10 < m + 1 := Nat.div_lt_self (by omega) (by omega)
      rw [natDigitsAux_fuel_irrel m ((m + 1) / 10) ((m + 1) / 10) (by omega) le_rfl]

theorem natDigits_ne_nil (n : Nat) : natDigits n ≠ [] := by
  rw [natDigits_eq]
  split <;> simp

theorem natDigits_lt (n : Nat) : ∀ d ∈ natDigits n, d < 10 := by
  induction n using Nat.strong_induction_on with
  | _ n ih =>
    rw [natDigits_eq]
    by_cases hn : n < 10
    · simp [hn]
    · have hd : n / 10 < n := Nat.div_lt_self (by omega) (by omega)
      simp only [if_neg hn, List.mem_append, List.mem_singleton]
      rintro d (h | h)
      · exact ih (n / 10) hd d h
      · omega

theorem natDigits_inj : ∀ m n, natDigits m = natDigits n → m = n := by
  intro m
  induction m using Nat.strong_induction_on with
  | _ m ih =>
    intro n h
    rw [natDigits_eq m, natDigits_eq n] at h
    by_cases hm : m < 10 <;> by_cases hn : n < 10
    · simpa [hm, hn] using h
    · exfalso
      rw [if_pos hm, if_neg hn] at h
      have hlen := congrArg List.length h
      simp only [List.length_singleton, List.length_append, List.length_cons,
        List.length_nil] at hlen
      have h0 : (natDigits (n / 10)).length = 0 := by omega
      exact natDigits_ne_nil (n / 10) (List.length_eq_zero.mp h0)
    · exfalso
      rw [if_neg hm, if_pos hn] at h
      have hlen := congrArg List.length h
      simp only [List.length_singleton, List.length_append, List.length_cons,
        List.length_nil] at hlen
      have h0 : (natDigits (m / 10)).length = 0 := by omega
      exact natDigits_ne_nil (m / 10) (List.length_eq_zero.mp h0)
    · rw [if_neg hm, if_neg hn] at h
      have hrev := congrArg List.reverse h
      simp only [List.reverse_append, List.reverse_cons, List.reverse_nil,
        List.nil_append, List.cons_append, List.cons.injEq] at hrev
      obtain ⟨hmod, htail⟩ := hrev
      have hdiv : natDigits (m / 10) = natDigits (n / 10) :=
        List.reverse_injective htail
      have hdm : m / 10 < m := Nat.div_lt_self (by omega) (by omega)
      have := ih (m / 10) hdm (n / 10) hdiv
      omega

theorem digitChar_inj :
    ∀ d₁, d₁ < 10 → ∀ d₂, d₂ < 10 → digitChar d₁ = digitChar d₂ → d₁ = d₂ := by
  intro d₁ h₁ d₂ h₂ h
  interval_cases d₁ <;> interval_cases d₂ <;> revert h <;> decide

theorem digitChar_ne_dot : ∀ d, d < 10 → digitChar d ≠ '.' := by
  intro d h
  interval_cases d <;> decide

theorem mapDigitChar_inj :
    ∀ l₁ l₂ : List Nat, (∀ d ∈ l₁, d < 10) → (∀ d ∈ l₂, d < 10) →
      l₁.map digitChar = l₂.map digitChar → l₁ = l₂ := by
  intro l₁
  induction l₁ with
  | nil =>
    intro l₂ _ _ h
    cases l₂ with
    | nil => rfl
    | cons b t => simp at h
  | cons a s ih =>
    intro l₂ h₁ h₂ h
    cases l₂ with
    | nil => simp at h
    | cons b t =>
      simp only [List.map_cons, List.cons.injEq] at h
      have ha : a = b :=
        digitChar_inj a (h₁ a (by simp)) b (h₂ b (by simp)) h.1
      have ht : s = t :=
        ih t (fun d hd => h₁ d (by simp [hd])) (fun d hd => h₂ d (by simp [hd])) h.2
      rw [ha, ht]

theorem natStr_inj : ∀ m n, natStr m = natStr n → m = n := by
  intro m n h
  have hdata := congrArg String.data h
  simp only [natStr] at hdata
  exact natDigits_inj m n
    (mapDigitChar_inj _ _ (natDigits_lt m) (natDigits_lt n) hdata)

theorem natStr_no_dot (n : Nat) : '.' ∉ (natStr n).data := by
  simp only [natStr]
  intro hmem
  rw [List.mem_map] at hmem
  obtain ⟨d, hd, hdc⟩ := hmem
  exact digitChar_ne_dot d (natDigits_lt n d hd) hdc

theorem string_data_append (s t : String) : (s ++ t).data = s.data ++ t.data := rfl

theorem string_eq_of_data : ∀ s t : String, s.data = t.data → s = t := by
  intro s t h
  cases s
  cases t
  exact congrArg String.mk h

theorem dot_not_mem_sepTail : '.' ∉ sepTail := by decide

theorem sep_data_eq : (". Frame ").data = '.' :: sepTail := by decide

theorem append_sep_cancel (da db : List Char)
    (hda : '.' ∉ da) (hdb : '.' ∉ db) :
    ∀ a b : List Char,
      a ++ ('.' :: sepTail) ++ da = b ++ ('.' :: sepTail) ++ db → a = b := by
  intro a
  induction a with
  | nil =>
    intro b h
    cases b with
    | nil => rfl
    | cons y t =>
      exfalso
      simp only [List.nil_append, List.cons_append, List.append_assoc,
        List.cons.injEq] at h
      have hmem : '.' ∈ sepTail ++ da := by rw [h.2]; simp
      rcases List.mem_append.mp hmem with hmem | hmem
      · exact dot_not_mem_sepTail hmem
      · exact hda hmem
  | cons x a ih =>
    intro b h
    cases b with
    | nil =>
      exfalso
      simp only [List.nil_append, List.cons_append, List.append_assoc,
        List.cons.injEq] at h
      have hmem : '.' ∈ sepTail ++ db := by rw [← h.2]; simp
      rcases List.mem_append.mp hmem with hmem | hmem
      · exact dot_not_mem_sepTail hmem
      · exact hdb hmem
    | cons y t =>
      simp only [List.cons_append, List.cons.injEq] at h
      rw [h.1, ih t h.2]

theorem formatFrame_inj_name (n₁ n₂ : String) (c₁ c₂ : Nat)
    (h : formatFrame n₁ c₁ = formatFrame n₂ c₂) : n₁ = n₂ := by
  have hd := congrArg String.data h
  simp only [formatFrame, string_data_append] at hd
  have hsep : ('.' :: sepTail : List Char) = ['.', ' ', 'F', 'r', 'a', 'm', 'e', ' '] := by
    decide
  rw [← hsep] at hd
  have h₁ := List.append_cancel_right hd
  have h₂ :=
    append_sep_cancel (natStr c₁).data (natStr c₂).data
      (natStr_no_dot c₁) (natStr_no_dot c₂) _ _ h₁
  exact string_eq_of_data n₁ n₂ (List.append_cancel_left h₂)

/-- C1: in the Verifying step a collision is reported if and only if the
value currently in the shared frame buffer differs from the frame `f` the
station itself wrote: `isCollisionDetected` returns `true` exactly when
the two strings are unequal, with no other condition involved. -/
theorem isCollisionDetected_iff_ne (frame frameBuffer : String) :
    isCollisionDetected frame frameBuffer = true ↔ frame ≠ frameBuffer := by
  simp [isCollisionDetected, bne_iff_ne]

theorem isCollisionDetected_iff_ne_witness :
    isCollisionDetected "a" "b" = true :=
  (isCollisionDetected_iff_ne "a" "b").mpr (by decide)

/-- C2: on every collision outcome — exhausted or not — the station never
sets the shared idle flag back to `true`: the iteration leaves the medium
busy, terminating on exhaustion and going back to sensing otherwise; the
medium is left idle exactly when the success branch was taken. -/
theorem collision_never_releases_medium (s : StationState) (b : String) :
    (isCollisionDetected (frameOf s) b = true →
      (runIteration s b).2.1 = false ∧
      (s.attemptNumber > maxAttemptCount →
        statusAfter (runIteration s b).1 (runIteration s b).2.2 =
          RunStatus.terminated TermReason.maxAttemptsExceeded) ∧
      (¬ s.attemptNumber > maxAttemptCount →
        s.transmittedCount < s.frameCount →
        statusAfter (runIteration s b).1 (runIteration s b).2.2 =
          RunStatus.sensing)) ∧
    ((runIteration s b).2.1 = true ↔ (runIteration s b).2.2 = Outcome.succeeded) := by
  by_cases hc : isCollisionDetected (frameOf s) b = true
  · by_cases ha : s.attemptNumber > maxAttemptCount
    · simp [runIteration, statusAfter, hc, ha]
    · simp [runIteration, statusAfter, hc, ha]
  · simp [runIteration, statusAfter, hc]

theorem collision_never_releases_medium_witness :
    (runIteration (initStation "Apollo0" 1) "").2.1 = false :=
  ((collision_never_releases_medium (initStation "Apollo0" 1) "").1 (by decide)).1

/-- C3 counterexample: a station that has reached
`attemptNumber = maxAttemptCount + 1 = 16` does NOT necessarily terminate
with `max-attempts-exceeded`: when its sixteenth transmission sees no
collision (the buffer still holds its own frame) the success branch runs,
`transmittedCount` is incremented, and the station goes on. -/
theorem delivery_possible_at_attempt_16 :
    station16.attemptNumber = maxAttemptCount + 1 ∧
    (runIteration station16 (frameOf station16)).2.2 = Outcome.succeeded ∧
    (runIteration station16 (frameOf station16)).1.transmittedCount =
      station16.transmittedCount + 1 ∧
    statusAfter (runIteration station16 (frameOf station16)).1
      (runIteration station16 (frameOf station16)).2.2 = RunStatus.sensing := by
  decide

/-- C3 amended: a station at `attemptNumber = maxAttemptCount + 1`
terminates with `max-attempts-exceeded` — leaving its state, in particular
its delivered count, unchanged — exactly when a collision is detected on
that attempt; when no collision is detected the sixteenth attempt
delivers the frame like any other. -/
theorem attempt_16_terminates_iff_collision (s : StationState) (b : String)
    (h : s.attemptNumber = maxAttemptCount + 1) :
    (isCollisionDetected (frameOf s) b = true →
      runIteration s b = (s, false, Outcome.collidedTerminated) ∧
      statusAfter (runIteration s b).1 (runIteration s b).2.2 =
        RunStatus.terminated TermReason.maxAttemptsExceeded) ∧
    (isCollisionDetected (frameOf s) b = false →
      (runIteration s b).2.2 = Outcome.succeeded ∧
      (runIteration s b).1.transmittedCount = s.transmittedCount + 1) := by
  constructor
  · intro hc
    have hgt : s.attemptNumber > maxAttemptCount := by omega
    simp [runIteration, statusAfter, hc, hgt]
  · intro hc
    simp [runIteration, statusAfter, hc]

theorem attempt_16_terminates_iff_collision_witness :
    runIteration station16 "other" = (station16, false, Outcome.collidedTerminated) :=
  (((attempt_16_terminates_iff_collision station16 "other" (by decide)).1)
    (by decide)).1

/-- C4: when the Verifying check finds no collision, the iteration
increments the delivered count by exactly 1, resets `attemptNumber` to 1
and sets the medium idle; afterwards the station terminates with
`quota-reached` exactly when the incremented delivered count has reached
its target frame count, and otherwise goes back to sensing. -/
theorem success_branch_spec (s : StationState) (b : String)
    (h : isCollisionDetected (frameOf s) b = false) :
    runIteration s b =
      ({ s with transmittedCount := s.transmittedCount + 1, attemptNumber := 1 },
        true, Outcome.succeeded) ∧
    (statusAfter (runIteration s b).1 (runIteration s b).2.2 =
        RunStatus.terminated TermReason.quotaReached ↔
      s.frameCount ≤ s.transmittedCount + 1) ∧
    (statusAfter (runIteration s b).1 (runIteration s b).2.2 = RunStatus.sensing ↔
      s.transmittedCount + 1 < s.frameCount) := by
  have hr : runIteration s b =
      ({ s with transmittedCount := s.transmittedCount + 1, attemptNumber := 1 },
        true, Outcome.succeeded) := by
    simp [runIteration, h]
  refine ⟨hr, ?_, ?_⟩ <;> rw [hr] <;>
    by_cases hq : s.transmittedCount + 1 < s.frameCount <;>
      simp [statusAfter, hq] <;> omega

theorem success_branch_spec_witness :
    runIteration (initStation "Apollo0" 1) (frameOf (initStation "Apollo0" 1)) =
      ({ initStation "Apollo0" 1 with transmittedCount := 1, attemptNumber := 1 },
        true, Outcome.succeeded) :=
  (success_branch_spec (initStation "Apollo0" 1)
    (frameOf (initStation "Apollo0" 1)) (by decide)).1

/-- C5: at every point of a station run — any state reachable at the top
of a loop iteration — `1 ≤ attemptNumber ≤ maxAttemptCount + 1`: it
starts at 1, is reset to 1 on success, and is incremented only after a
collision on which `attemptNumber ≤ maxAttemptCount` held. -/
theorem attemptNumber_bounds (name : String) (frameCount : Nat)
    (s : StationState) (h : Reachable name frameCount s) :
    1 ≤ s.attemptNumber ∧ s.attemptNumber ≤ maxAttemptCount + 1 := by
  induction h with
  | init => simp [initStation]
  | step b hr hlt ih =>
    rename_i s'
    by_cases hc : isCollisionDetected (frameOf s') b = true
    · by_cases ha : s'.attemptNumber > maxAttemptCount
      · simpa [runIteration, hc, ha] using ih
      · have hstep : (runIteration s' b).1 =
            { s' with attemptNumber := s'.attemptNumber + 1 } := by
          simp [runIteration, hc, ha]
        rw [hstep]
        show 1 ≤ s'.attemptNumber + 1 ∧ s'.attemptNumber + 1 ≤ maxAttemptCount + 1
        simp only [maxAttemptCount] at ih ha ⊢
        omega
    · have hstep : (runIteration s' b).1 =
          { s' with transmittedCount := s'.transmittedCount + 1, attemptNumber := 1 } := by
        simp [runIteration, hc]
      rw [hstep]
      show 1 ≤ 1 ∧ 1 ≤ maxAttemptCount + 1
      simp [maxAttemptCount]

theorem attemptNumber_bounds_witness :
    1 ≤ (initStation "Apollo0" 1).attemptNumber ∧
      (initStation "Apollo0" 1).attemptNumber ≤ maxAttemptCount + 1 :=
  attemptNumber_bounds "Apollo0" 1 (initStation "Apollo0" 1) Reachable.init

/-- C6: for every attempt number `k ≥ 1` the backoff period equals
`interframeGap + 9.6e-6 * r` with `r` an integer from the inclusive range
`0 .. 2 ^ k`; it is bounded by the maximum backoff for attempt `k`, and
that maximum is non-decreasing in `k`. -/
theorem backoff_formula_and_growth (k k' r : Nat)
    (hk : 1 ≤ k) (hkk : k ≤ k') (hr : r ≤ 2 ^ k) :
    getBackoffPeriod k r = interframeGap + 9.6e-6 * r ∧
    getBackoffPeriod k r ≤ maxBackoffPeriod k ∧
    maxBackoffPeriod k ≤ maxBackoffPeriod k' := by
  have h96 : (0 : ℚ) ≤ 9.6e-6 := by norm_num
  refine ⟨rfl, ?_, ?_⟩
  · unfold maxBackoffPeriod getBackoffPeriod
    have hcast : (r : ℚ) ≤ ((2 ^ k : Nat) : ℚ) := by exact_mod_cast hr
    exact add_le_add_left (mul_le_mul_of_nonneg_left hcast h96) _
  · unfold maxBackoffPeriod getBackoffPeriod
    have hpow : ((2 ^ k : Nat) : ℚ) ≤ ((2 ^ k' : Nat) : ℚ) := by
      exact_mod_cast Nat.pow_le_pow_right (by norm_num) hkk
    exact add_le_add_left (mul_le_mul_of_nonneg_left hpow h96) _

theorem backoff_formula_and_growth_witness :
    getBackoffPeriod 1 1 ≤ maxBackoffPeriod 1 ∧
      maxBackoffPeriod 1 ≤ maxBackoffPeriod 2 :=
  ⟨(backoff_formula_and_growth 1 2 1 (by decide) (by decide) (by decide)).2.1,
    (backoff_formula_and_growth 1 2 1 (by decide) (by decide) (by decide)).2.2⟩

/-- C7: `runSession(stationCount)` constructs exactly `stationCount`
stations, the one at 0-based index `i` being named `Apollo` followed by `i`,
so its target quota is `i + 1`; in particular `runSession(3)` creates
stations targeting 1, 2 and 3 frames. -/
theorem runSession_station_quotas (n : Nat) :
    (runSessionStations n).length = n ∧
    (∀ i, i < n → (runSessionStations n)[i]? = some (apolloName i, i + 1)) ∧
    (runSessionStations 3).map Prod.snd = [1, 2, 3] := by
  refine ⟨by simp [runSessionStations], ?_, by decide⟩
  intro i hi
  simp [runSessionStations, hi]

theorem runSession_station_quotas_witness :
    (runSessionStations 3).length = 3 ∧
      (runSessionStations 3)[2]? = some (apolloName 2, 3) :=
  ⟨(runSession_station_quotas 3).1,
    (runSession_station_quotas 3).2.1 2 (by decide)⟩

/-- C8 counterexample: `runSession(1)` does not return a `SessionResult`
for its stations — the Python function falls off the end of its body and
returns `None`, so there is no returned result at all. -/
theorem runSession_returns_no_result :
    ¬ ∃ res : SessionResult, runSessionReturn 1 = some res := by
  rintro ⟨res, h⟩
  simp [runSessionReturn] at h

/-- C8 amended: `runSession(n)` starts all of its `n` stations and joins
every one of them, so it does block until each has terminated — its call
trace starts every station `Apollo0 .. Apollo(n-1)`, then joins every one
of them, and only then prints the closing message and returns — but it
returns `None` for every station count: no aggregate of per-station
delivered counts and termination reasons is returned to the caller. -/
theorem runSession_joins_all_returns_none (n : Nat) :
    (∀ i, i < n →
      SessionAction.start (apolloName i) ∈ runSessionTrace n ∧
      SessionAction.join (apolloName i) ∈ runSessionTrace n) ∧
    runSessionTrace n =
      [SessionAction.printLine "Starting session"] ++
        (List.range n).map (fun i => SessionAction.start (apolloName i)) ++
        (List.range n).map (fun i => SessionAction.join (apolloName i)) ++
        [SessionAction.printLine "Session ended"] ∧
    runSessionReturn n = none := by
  refine ⟨?_, ?_, rfl⟩
  · intro i hi
    have hs : SessionAction.start (apolloName i) ∈
        (runSessionStations n).map (fun s => SessionAction.start s.1) := by
      simp only [runSessionStations, List.map_map, List.mem_map, List.mem_range,
        Function.comp_apply]
      exact ⟨i, hi, rfl⟩
    have hj : SessionAction.join (apolloName i) ∈
        (runSessionStations n).map (fun s => SessionAction.join s.1) := by
      simp only [runSessionStations, List.map_map, List.mem_map, List.mem_range,
        Function.comp_apply]
      exact ⟨i, hi, rfl⟩
    rw [runSessionTrace]
    exact ⟨List.mem_append_left _ (List.mem_append_left _
        (List.mem_append_right _ hs)),
      List.mem_append_left _ (List.mem_append_right _ hj)⟩
  · simp [runSessionTrace, runSessionStations, List.map_map, Function.comp_def]

theorem runSession_joins_all_returns_none_witness :
    SessionAction.start (apolloName 0) ∈ runSessionTrace 1 ∧
      SessionAction.join (apolloName 0) ∈ runSessionTrace 1 :=
  (runSession_joins_all_returns_none 1).1 0 (by decide)

/-- C9: the `__main__` block calls `runSession(n)` exactly when the single
positional argument parses to an integer `n` with `1 ≤ n ≤ cpu_count()`;
a non-numeric argument, a value below 1 and a value above the CPU count
each produce a human-readable message and the session never starts. -/
theorem cliMain_spec (parseInt : String → Option Int) (argv : List String)
    (cpuCount : Int) (n : Int) :
    (cliMain parseInt argv cpuCount = CliAction.runSession n ↔
      ∃ prog arg, argv = [prog, arg] ∧ parseInt arg = some n ∧
        1 ≤ n ∧ n ≤ cpuCount) ∧
    (∀ prog arg, argv = [prog, arg] → parseInt arg = none →
      cliMain parseInt argv cpuCount =
        CliAction.printMsg "Station count is not a number") ∧
    (∀ prog arg m, argv = [prog, arg] → parseInt arg = some m → cpuCount < m →
      cliMain parseInt argv cpuCount =
        CliAction.printMsg "Station count is greater than CPU count") ∧
    (∀ prog arg m, argv = [prog, arg] → parseInt arg = some m → m ≤ cpuCount →
      m < 1 →
      cliMain parseInt argv cpuCount =
        CliAction.printMsg "Enter positive station count") := by
  refine ⟨?_, ?_, ?_, ?_⟩
  · constructor
    · intro h
      match argv with
      | [] => simp [cliMain] at h
      | [a] => simp [cliMain] at h
      | a :: b :: c :: t => simp [cliMain] at h
      | [a, b] =>
        refine ⟨a, b, rfl, ?_⟩
        simp only [cliMain] at h
        match hp : parseInt b with
        | none => rw [hp] at h; simp at h
        | some m =>
          rw [hp] at h
          dsimp only at h
          by_cases h₁ : m > cpuCount
          · rw [if_pos h₁] at h; simp at h
          · rw [if_neg h₁] at h
            by_cases h₂ : m < 1
            · rw [if_pos h₂] at h; simp at h
            · rw [if_neg h₂] at h
              simp only [CliAction.runSession.injEq] at h
              subst h
              exact ⟨rfl, by omega, by omega⟩
    · rintro ⟨prog, arg, rfl, hp, h₁, h₂⟩
      simp only [cliMain, hp, if_neg (by omega : ¬ n > cpuCount),
        if_neg (by omega : ¬ n < 1)]
  · rintro prog arg rfl hp
    simp [cliMain, hp]
  · rintro prog arg m rfl hp hgt
    simp [cliMain, hp, if_pos (by omega : m > cpuCount)]
  · rintro prog arg m rfl hp hle hlt
    simp [cliMain, hp, if_neg (by omega : ¬ m > cpuCount),
      if_pos (by omega : m < 1)]

theorem cliMain_spec_witness :
    cliMain (fun _ => some 2) ["task1.py", "2"] 4 = CliAction.runSession 2 :=
  (cliMain_spec (fun _ => some 2) ["task1.py", "2"] 4 2).1.mpr
    ⟨"task1.py", "2", rfl, rfl, by decide, by decide⟩

/-- C10 (implicit): frames built from the template
`Station {name}. Frame {count}.` by stations with distinct names are never
equal, whatever the two delivered counts are; `runSession` names its
stations `Apollo0 .. Apollo(n-1)`, which are pairwise distinct; hence a
station whose buffer was overwritten by a different station during its
hold window always reports a collision — frame equality can never mask an
overwrite by a different station. -/
theorem frames_of_distinct_stations_differ :
    (∀ n₁ n₂ c₁ c₂, n₁ ≠ n₂ → formatFrame n₁ c₁ ≠ formatFrame n₂ c₂) ∧
    (∀ i j : Nat, i ≠ j → apolloName i ≠ apolloName j) ∧
    (∀ n : Nat, (runSessionStations n).map Prod.fst =
      (List.range n).map apolloName) ∧
    (∀ i j ci cj : Nat, i ≠ j →
      isCollisionDetected (formatFrame (apolloName i) ci)
        (formatFrame (apolloName j) cj) = true) := by
  have h₁ : ∀ n₁ n₂ c₁ c₂, n₁ ≠ n₂ → formatFrame n₁ c₁ ≠ formatFrame n₂ c₂ :=
    fun n₁ n₂ c₁ c₂ hne h => hne (formatFrame_inj_name n₁ n₂ c₁ c₂ h)
  have h₂ : ∀ i j : Nat, i ≠ j → apolloName i ≠ apolloName j := by
    intro i j hij h
    apply hij
    apply natStr_inj
    have hd := congrArg String.data h
    simp only [apolloName, string_data_append] at hd
    exact string_eq_of_data _ _ (List.append_cancel_left hd)
  refine ⟨h₁, h₂, by simp [runSessionStations], ?_⟩
  intro i j ci cj hij
  simp only [isCollisionDetected, bne_iff_ne, ne_eq]
  exact h₁ _ _ _ _ (h₂ i j hij)

theorem frames_of_distinct_stations_differ_witness :
    isCollisionDetected (formatFrame (apolloName 0) 0)
      (formatFrame (apolloName 1) 0) = true :=
  frames_of_distinct_stations_differ.2.2.2 0 1 0 0 (by decide)
